import Mathlib

/-!
Shallow embedding of `src/mcp_datajud_server.py`, a FastAPI adapter exposing
tool invocations (`/invoke/search`, `/invoke/fetch`), a health endpoint and an
SSE discovery stream over the DataJud upstream search API.

JSON values are modelled by the inductive `Json`; Python dictionary/str/int
primitives used by the handlers are modelled by `py*` helpers with explicit
error propagation (`Except PyErr`); the upstream HTTP service is an oracle
`Upstream : String → Json → HttpResp` mapping the request URL and JSON body to
a response (status code, raw text, parsed JSON body).
-/

/-- JSON values as produced by the Python `json` module / FastAPI body parsing:
`None`, `bool`, numbers (modelled as integers), strings, lists and dicts
(association lists with string keys). -/
inductive Json where
  | null
  | bool (b : Bool)
  | num (n : Int)
  | str (s : String)
  | arr (xs : List Json)
  | obj (fields : List (String × Json))

/-- Key lookup in the field list of a JSON object (Python dict lookup; dicts built
by `json.loads` have unique keys, so first-match lookup is faithful). -/
def Json.lookupField : List (String × Json) → String → Option Json
  | [], _ => none
  | (k, v) :: fs, key => if k = key then some v else Json.lookupField fs key

/-- Python truthiness (`bool(x)`) on JSON values: `None`, `False`, `0`, `""`,
`[]` and the empty dict are falsy, everything else truthy. -/
def truthy : Json → Bool
  | .null => false
  | .bool b => b
  | .num n => n != 0
  | .str s => s ≠ ""
  | .arr xs => !xs.isEmpty
  | .obj fs => !fs.isEmpty

mutual
/-- Python `repr` of a JSON value (used by `str()` on non-string values;
string escaping inside `repr` of strings is not modelled — no claim
exercises strings containing quotes). -/
def pyRepr : Json → String
  | .null => "None"
  | .bool true => "True"
  | .bool false => "False"
  | .num n => toString n
  | .str s => "\x27" ++ s ++ "\x27"
  | .arr xs => "[" ++ pyReprList xs ++ "]"
  | .obj fs => "\x7b" ++ pyReprFields fs ++ "\x7d"
/-- Comma-separated `repr` of list elements. -/
def pyReprList : List Json → String
  | [] => ""
  | [x] => pyRepr x
  | x :: xs => pyRepr x ++ ", " ++ pyReprList xs
/-- Comma-separated `repr` of dict entries. -/
def pyReprFields : List (String × Json) → String
  | [] => ""
  | [(k, v)] => "\x27" ++ k ++ "\x27: " ++ pyRepr v
  | (k, v) :: fs => "\x27" ++ k ++ "\x27: " ++ pyRepr v ++ ", " ++ pyReprFields fs
end

/-- Python `str()` on a JSON value: identity on strings, `repr`-like
rendering otherwise. -/
def pyStr (j : Json) : String :=
  match j with
  | .str s => s
  | _ => pyRepr j

/-- Python `str.strip()` (whitespace stripping at both ends). -/
def pyStrip (s : String) : String :=
  String.mk (((s.data.dropWhile Char.isWhitespace).reverse.dropWhile Char.isWhitespace).reverse)

/-- Decimal digit accumulation for `pyParseInt`: `none` when a non-digit
character occurs. -/
def digitsVal : List Char → Nat → Option Nat
  | [], acc => some acc
  | c :: cs, acc =>
    if c.isDigit then digitsVal cs (acc * 10 + (c.toNat - 48)) else none

/-- Python `int(str)`: surrounding whitespace ignored, optional sign, at
least one decimal digit and nothing else (digit-group underscores are not
modelled; no claim exercises them). -/
def pyParseInt (s : String) : Option Int :=
  match (pyStrip s).data with
  | [] => none
  | '-' :: cs =>
    match cs with
    | [] => none
    | _ => (digitsVal cs 0).map (fun n => -(n : Int))
  | '+' :: cs =>
    match cs with
    | [] => none
    | _ => (digitsVal cs 0).map (fun n => (n : Int))
  | cs => (digitsVal cs 0).map (fun n => (n : Int))

/-- Python exceptions raised by the handlers: `HTTPException(status, detail)`
and the builtin exception classes the handler code can raise. -/
inductive PyErr where
  | http (status : Nat) (detail : String)
  | keyError (key : String)
  | typeError
  | attributeError
  | valueError

/-- Python `d.get(k)`: `None`-free `Option` result on dicts, `AttributeError`
on any non-dict receiver. -/
def pyGet : Json → String → Except PyErr (Option Json)
  | .obj fs, k => .ok (Json.lookupField fs k)
  | _, _ => .error .attributeError

/-- Python `d.get(k, default)`. -/
def pyGetD (j : Json) (k : String) (d : Json) : Except PyErr Json :=
  (pyGet j k).map (fun o => o.getD d)

/-- Python `d[k]` on a JSON value: `KeyError` when the key is absent,
`TypeError` when the receiver is not a dict. -/
def pySubscript : Json → String → Except PyErr Json
  | .obj fs, k =>
    match Json.lookupField fs k with
    | some v => .ok v
    | none => .error (.keyError k)
  | _, _ => .error .typeError

/-- Python `x or y` (returns `x` when truthy, else `y`). -/
def pyOr (x y : Json) : Json :=
  if truthy x then x else y

/-- Python `int()` on a JSON value: numbers pass through, booleans coerce,
numeric strings are parsed (`ValueError` otherwise), anything else is a
`TypeError`. -/
def pyInt : Json → Except PyErr Int
  | .num n => .ok n
  | .bool b => .ok (if b then 1 else 0)
  | .str s =>
    match pyParseInt s with
    | some n => .ok n
    | none => .error .valueError
  | .null => .error .typeError
  | .arr _ => .error .typeError
  | .obj _ => .error .typeError

/-- Python iteration (`for h in hits`): lists yield elements, dicts yield
keys, strings yield one-character strings, everything else raises
`TypeError`. -/
def pyIter : Json → Except PyErr (List Json)
  | .arr xs => .ok xs
  | .obj fs => .ok (fs.map fun kv => .str kv.1)
  | .str s => .ok (s.data.map fun c => .str c.toString)
  | .null => .error .typeError
  | .bool _ => .error .typeError
  | .num _ => .error .typeError

/-! Configuration constants (source lines 11-13). -/

/-- Upstream base URL (`DATAJUD_BASE`, source line 12). -/
def DATAJUD_BASE : String := "https://api-publica.datajud.cnj.jus.br"

/-- Default upstream partition (`DEFAULT_ALIAS`, source line 13). -/
def DEFAULT_ALIAS : String := "api_publica_tjrj"

/-- Response of one upstream HTTP POST: `status_code`, raw `text`, and the
parsed JSON body (`r.json()`). -/
structure HttpResp where
  status : Nat
  text : String
  body : Json

/-- The upstream service as an oracle from request URL and JSON request body
to its HTTP response. -/
def Upstream : Type := String → Json → HttpResp

/-- The URL the adapter posts to: `f"\x7bDATAJUD_BASE\x7d/\x7balias\x7d/_search"`
(source line 26). -/
def search_url (aliasArg : String) : String :=
  DATAJUD_BASE ++ "/" ++ aliasArg ++ "/_search"

/-- The helper `_post_search` (source lines 25-31): POST the body to
`search_url aliasArg`; a status `>= 400` raises
`HTTPException(status, "Erro DataJud: " + text)`, otherwise the parsed JSON
body is returned. -/
def post_search (up : Upstream) (aliasArg : String) (body : Json) : Except PyErr Json :=
  let r := up (search_url aliasArg) body
  if 400 ≤ r.status then .error (.http r.status ("Erro DataJud: " ++ r.text))
  else .ok r.body

/-- The helper `_first_source` (source lines 33-35):
`items = hits.get("hits", \x7b\x7d).get("hits", [])`, then
`items[0].get("_source") if items else None`. Subscripting a truthy non-list
raises in Python (the exact exception class varies by type; all are modelled
as `typeError` — every non-`HTTPException` exception is handled identically
by the framework). -/
def first_source (hits : Json) : Except PyErr (Option Json) := do
  let h1 ← pyGetD hits "hits" (.obj [])
  let items ← pyGetD h1 "hits" (.arr [])
  if truthy items then
    match items with
    | .arr (x :: _) => pyGet x "_source"
    | _ => .error .typeError
  else
    .ok none

/-- The query body built by `invoke_search` (source lines 97-108): a bool
`should` over an exact `match` on `numeroProcesso` and a `match_phrase` on
`classe.descricao`, restricted to the `numeroProcesso` field, with the
requested page size. -/
def search_body (query : String) (size : Int) : Json :=
  .obj
    [("query", .obj
      [("bool", .obj
        [("should", .arr
          [.obj [("match", .obj [("numeroProcesso", .str query)])],
           .obj [("match_phrase", .obj [("classe.descricao", .str query)])]])])]),
     ("_source", .obj [("includes", .arr [.str "numeroProcesso"])]),
     ("size", .num size)]

/-- The list comprehension of source line 111:
`[h.get("_source", \x7b\x7d).get("numeroProcesso") for h in hits if h.get("_source")]`.
Hits without a truthy `_source` are skipped; for the kept ones the
`numeroProcesso` value (possibly `None`) is collected. -/
def extract_ids : List Json → Except PyErr (List Json)
  | [] => .ok []
  | h :: hs => do
    let srcOpt ← pyGet h "_source"
    let src := srcOpt.getD .null
    if truthy src then do
      let np ← pyGet src "numeroProcesso"
      let rest ← extract_ids hs
      .ok ((np.getD .null) :: rest)
    else
      extract_ids hs

/-- Response construction of `invoke_search` from the upstream JSON
(source lines 110-113): read `hits.hits`, run the id comprehension, then
filter falsy entries (`[i for i in ids if i]`) and wrap in
`\x7b"ok": True, "ids": [...]\x7d`. -/
def search_extract (data : Json) : Except PyErr Json := do
  let h1 ← pyGetD data "hits" (.obj [])
  let hitsJ ← pyGetD h1 "hits" (.arr [])
  let hits ← pyIter hitsJ
  let ids ← extract_ids hits
  .ok (.obj [("ok", .bool true), ("ids", .arr (ids.filter truthy))])

/-- The `POST /invoke/search` handler `invoke_search` (source lines 89-113).
`payload` is the request body (FastAPI guarantees a JSON object for a
`Dict[str, Any]` parameter). `args = payload.get("arguments", payload)`,
then `query = str(args["query"]).strip()`, `size = int(args.get("size", 10))`,
`alias = str(args.get("alias") or DEFAULT_ALIAS)`, one upstream POST, and the
id extraction. -/
def invoke_search (up : Upstream) (payload : List (String × Json)) : Except PyErr Json := do
  let args := (Json.lookupField payload "arguments").getD (.obj payload)
  let queryJ ← pySubscript args "query"
  let query := pyStrip (pyStr queryJ)
  let sizeJ ← pyGetD args "size" (.num 10)
  let size ← pyInt sizeJ
  let aliasJ ← pyGetD args "alias" .null
  let aliasStr := pyStr (pyOr aliasJ (.str DEFAULT_ALIAS))
  let data ← post_search up aliasStr (search_body query size)
  search_extract data

/-- The query body built by `invoke_fetch` (source lines 121-124): exact
`match` on `numeroProcesso`, size 1. -/
def fetch_body (proc_id : String) : Json :=
  .obj
    [("query", .obj [("match", .obj [("numeroProcesso", .str proc_id)])]),
     ("size", .num 1)]

/-- Response construction of `invoke_fetch` from the upstream JSON (source
lines 126-129): `src = _first_source(data)`; falsy `src` (no hit, missing
`_source`, or an empty `_source`) yields `result: None`, otherwise the
document body. -/
def fetch_extract (data : Json) : Except PyErr Json := do
  let src ← first_source data
  if truthy (src.getD .null) then
    .ok (.obj [("ok", .bool true), ("result", src.getD .null)])
  else
    .ok (.obj [("ok", .bool true), ("result", .null)])

/-- The `POST /invoke/fetch` handler `invoke_fetch` (source lines 115-129):
`args = payload.get("arguments", payload)`, `proc_id = str(args["id"]).strip()`,
`alias = str(args.get("alias") or DEFAULT_ALIAS)`, one upstream POST, then
first-source extraction. -/
def invoke_fetch (up : Upstream) (payload : List (String × Json)) : Except PyErr Json := do
  let args := (Json.lookupField payload "arguments").getD (.obj payload)
  let idJ ← pySubscript args "id"
  let proc_id := pyStrip (pyStr idJ)
  let aliasJ ← pyGetD args "alias" .null
  let aliasStr := pyStr (pyOr aliasJ (.str DEFAULT_ALIAS))
  let data ← post_search up aliasStr (fetch_body proc_id)
  fetch_extract data

/-- An HTTP response of the adapter as seen by its client: status code and
JSON (or plain-text, modelled as `Json.str`) body. -/
structure HttpOut where
  status : Nat
  body : Json

/-- Modelled framework behavior (FastAPI/Starlette, a library dependency,
not repository code): a handler returning a dict is a 200 response with that
body; a raised `HTTPException(status, detail)` becomes a response with that
status and body `\x7b"detail": detail\x7d`; any other uncaught exception is
converted by the error middleware of the server into a plain 500
"Internal Server Error" response (the process does not crash). -/
def runHandler : Except PyErr Json → HttpOut
  | .ok j => ⟨200, j⟩
  | .error (.http s d) => ⟨s, .obj [("detail", .str d)]⟩
  | .error (.keyError _) => ⟨500, .str "Internal Server Error"⟩
  | .error .typeError => ⟨500, .str "Internal Server Error"⟩
  | .error .attributeError => ⟨500, .str "Internal Server Error"⟩
  | .error .valueError => ⟨500, .str "Internal Server Error"⟩

/-- The route table registered on the FastAPI app: exactly the decorators
present in the source (lines 89, 115, 132, 137-138). -/
def app_routes : List (String × String) :=
  [("POST", "/invoke/search"),
   ("POST", "/invoke/fetch"),
   ("GET", "/health"),
   ("GET", "/sse"),
   ("GET", "/sse/")]

/-- The static tool catalog `TOOLS` (source lines 39-86): only `search` and
`fetch`. -/
def TOOLS : Json :=
  .arr
    [.obj
      [("name", .str "search"),
       ("description", .str
         ("Procura processos no DataJud/TJ-RJ retornando IDs (numeroProcesso). " ++
          "Aceita qualquer string; tenta bater com numeroProcesso e com classe.descricao. " ++
          "Use o resultado para chamar \x27fetch\x27.")),
       ("input_schema", .obj
         [("type", .str "object"),
          ("properties", .obj
            [("query", .obj
              [("type", .str "string"),
               ("description", .str "Texto livre: número CNJ completo ou termos de busca.")]),
             ("size", .obj
              [("type", .str "integer"),
               ("default", .num 10)]),
             ("alias", .obj
              [("type", .str "string"),
               ("description", .str "Alias DataJud (padrão: api_publica_tjrj)."),
               ("default", .str DEFAULT_ALIAS)])]),
          ("required", .arr [.str "query"])])],
     .obj
      [("name", .str "fetch"),
       ("description", .str
         ("Obtém o registro completo de um processo pelo ID retornado em \x27search\x27 " ++
          "(numeroProcesso) a partir do DataJud/TJ-RJ.")),
       ("input_schema", .obj
         [("type", .str "object"),
          ("properties", .obj
            [("id", .obj
              [("type", .str "string"),
               ("description", .str "ID do processo (numeroProcesso) retornado por \x27search\x27.")]),
             ("alias", .obj
              [("type", .str "string"),
               ("description", .str "Alias DataJud (padrão: api_publica_tjrj)."),
               ("default", .str DEFAULT_ALIAS)])]),
          ("required", .arr [.str "id"])])]]

/-- One server-sent event of the discovery stream: the initial `event: tools`
frame carrying a JSON data payload, or an `event: ping` keep-alive frame
(whose data payload is the empty object). -/
inductive SseEvent where
  | tools (payload : Json)
  | ping

/-- The keep-alive loop of the `sse` generator (source lines 144-148): each
iteration first checks `request.is_disconnected()` and breaks if so,
otherwise sleeps and yields one ping. `n` pings are emitted when the
disconnect is first observed at the `n`-th check. -/
def pingLoop : Nat → List SseEvent
  | 0 => []
  | n + 1 => SseEvent.ping :: pingLoop n

/-- The full event sequence of one `GET /sse` connection (source lines
139-155), parametrised by the index `n` of the keep-alive check at which the
peer is first observed disconnected: one `tools` event carrying
`\x7b"tools": TOOLS\x7d` (source line 142), then the ping loop, then nothing
(the generator returns). -/
def sse_events (n : Nat) : List SseEvent :=
  SseEvent.tools (.obj [("tools", TOOLS)]) :: pingLoop n

/-! Claim-side observers and predicates over the modelled JSON shapes, and
concrete upstream oracles used by counterexamples and witnesses. -/

/-- Field projection on JSON values used to state claim-side predicates:
`none` unless the value is an object carrying the key. -/
def jfield (j : Json) (k : String) : Option Json :=
  match j with
  | .obj fs => Json.lookupField fs k
  | _ => none

/-- Element access on JSON arrays (claim-side observer). -/
def jindex (j : Json) (i : Nat) : Option Json :=
  match j with
  | .arr xs => xs.get? i
  | _ => none

/-- String content of a JSON value, `""` for non-strings (claim-side
observer). -/
def jstr (j : Json) : String :=
  match j with
  | .str s => s
  | _ => ""

/-- Path projection through nested JSON objects. -/
def jpath (j : Json) : List String → Option Json
  | [] => some j
  | k :: ks => (jfield j k).bind (fun v => jpath v ks)

/-- The query string a search request body carries (the `match` value on
`numeroProcesso` of the first `should` clause). -/
def queryOfBody (body : Json) : String :=
  jstr ((((jpath body ["query", "bool", "should"]).bind (jindex · 0)).bind
    (fun m => jpath m ["match", "numeroProcesso"])).getD Json.null)

/-- Length of the `ids` list of a response (observer separating the two
responses of the C5 counterexample). -/
def respIdsLen (r : HttpOut) : Nat :=
  match r.body with
  | .obj fs =>
    match Json.lookupField fs "ids" with
    | some (.arr l) => l.length
    | _ => 0
  | _ => 0

/-- An upstream response body with zero hits: its `hits.hits` list is
present and empty (the canonical zero-hit shape of the upstream search
API). -/
def zeroHits (d : Json) : Bool :=
  match (jfield d "hits").bind (fun h1 => jfield h1 "hits") with
  | some (.arr []) => true
  | _ => false

/-- An upstream response body whose first hit exists but carries no
`_source` field, or an `_source` equal to the empty object. -/
def firstSourceDegenerate (d : Json) : Bool :=
  match (jfield d "hits").bind (fun h1 => jfield h1 "hits") with
  | some (.arr (.obj hfs :: _)) =>
    match Json.lookupField hfs "_source" with
    | none => true
    | some (.obj []) => true
    | _ => false
  | _ => false

/-- The alias argument of an invocation body is absent, JSON null, or the
empty string. -/
def aliasUnset (payload : List (String × Json)) : Prop :=
  Json.lookupField payload "alias" = none ∨
  Json.lookupField payload "alias" = some Json.null ∨
  Json.lookupField payload "alias" = some (Json.str "")

/-- A well-formed upstream hit: a JSON object whose `_source`, when present,
is an object or null (the shapes the upstream search API produces). -/
def wfHit (h : Json) : Bool :=
  match h with
  | .obj fs =>
    match Json.lookupField fs "_source" with
    | some (.obj _) => true
    | some .null => true
    | none => true
    | _ => false
  | _ => false

/-- The id the C10 claim says `search` keeps for one hit: present exactly
when the hit carries a truthy (non-empty) `_source` object whose
`numeroProcesso` is present and truthy (not null and not the empty
string). -/
def keptId (h : Json) : Option Json :=
  match h with
  | .obj fs =>
    match Json.lookupField fs "_source" with
    | some (.obj sfs) =>
      if sfs.isEmpty then none
      else
        match Json.lookupField sfs "numeroProcesso" with
        | some v => if truthy v then some v else none
        | none => none
    | _ => none
  | _ => none

/-- Upstream oracle for the C1 counterexample: two hits carrying the same
case number. -/
def C1up : Upstream := fun _ _ =>
  ⟨200, "", .obj [("hits", .obj [("hits", .arr
    [.obj [("_source", .obj [("numeroProcesso", .str "A")])],
     .obj [("_source", .obj [("numeroProcesso", .str "A")])]])])]⟩

/-- Constant zero-hit upstream for the C2 witness. -/
def C2up : Upstream := fun _ _ => ⟨200, "", .obj [("hits", .obj [("hits", .arr [])])]⟩

/-- Constant zero-hit upstream for the C3 witness. -/
def C3up1 : Upstream := fun _ _ => ⟨200, "", .obj [("hits", .obj [("hits", .arr [])])]⟩

/-- Upstream for the C3 witness that behaves like `C3up1` on the
default-partition URL and differs everywhere else. -/
def C3up2 : Upstream := fun url b =>
  if url = search_url DEFAULT_ALIAS then C3up1 url b else ⟨404, "nope", .null⟩

/-- Constant 500 "internal error" upstream for the C4 witness (the scenario
given in the spec). -/
def C4up : Upstream := fun _ _ => ⟨500, "internal error", .null⟩

/-- Upstream oracle for the C5 counterexample: answers one hit exactly when
the request body queries for "a", zero hits otherwise. -/
def C5up : Upstream := fun _ body =>
  if queryOfBody body = "a" then
    ⟨200, "", .obj [("hits", .obj [("hits", .arr
      [.obj [("_source", .obj [("numeroProcesso", .str "X")])]])])]⟩
  else
    ⟨200, "", .obj [("hits", .obj [("hits", .arr [])])]⟩

/-- Arbitrary upstream for the C6 counterexample (never consulted: the
handler fails before any upstream call). -/
def C6up : Upstream := fun _ _ => ⟨200, "", .null⟩

/-- Upstream for the C9 witness: one hit whose `_source` is the empty
object. -/
def C9up : Upstream := fun _ _ =>
  ⟨200, "", .obj [("hits", .obj [("hits", .arr [.obj [("_source", .obj [])]])])]⟩

/-- Hit list for the C10 witness, exercising every dropped shape. -/
def C10hits : List Json :=
  [Json.obj [("_source", Json.obj [("numeroProcesso", Json.str "A")])],
   Json.obj [],
   Json.obj [("_source", Json.obj [])],
   Json.obj [("_source", Json.null)],
   Json.obj [("_source", Json.obj [("x", Json.num 1)])],
   Json.obj [("_source", Json.obj [("numeroProcesso", Json.null)])],
   Json.obj [("_source", Json.obj [("numeroProcesso", Json.str "")])],
   Json.obj [("_source", Json.obj [("numeroProcesso", Json.str "B")])]]

/-- Upstream for the C10 witness. -/
def C10up : Upstream := fun _ _ => ⟨200, "", .obj [("hits", .obj [("hits", .arr C10hits)])]⟩

/-! Generic lemmas about the `Except` monad used to destructure the
handlers, followed by structural lemmas and the claim theorems. -/

theorem exceptBind_ok {ε α β : Type} (x : Except ε α) (f : α → Except ε β) (b : β)
    (h : (x >>= f) = .ok b) : ∃ a, x = .ok a ∧ f a = .ok b := by
  cases x with
  | error e => simp [Bind.bind, Except.bind] at h
  | ok a => exact ⟨a, rfl, by simpa [Bind.bind, Except.bind] using h⟩

theorem okBind {ε α β : Type} (a : α) (f : α → Except ε β) :
    (Except.ok a >>= f : Except ε β) = f a := rfl

theorem errBind {ε α β : Type} (e : ε) (f : α → Except ε β) :
    ((Except.error e : Except ε α) >>= f) = Except.error e := rfl

theorem search_extract_ok_shape (data j : Json) (h : search_extract data = .ok j) :
    ∃ l, j = .obj [("ok", .bool true), ("ids", .arr l)] ∧ ∀ i ∈ l, truthy i = true := by
  unfold search_extract at h
  obtain ⟨h1, _, h⟩ := exceptBind_ok _ _ _ h
  obtain ⟨hitsJ, _, h⟩ := exceptBind_ok _ _ _ h
  obtain ⟨hits, _, h⟩ := exceptBind_ok _ _ _ h
  obtain ⟨ids, _, h⟩ := exceptBind_ok _ _ _ h
  refine ⟨ids.filter truthy, ?_, ?_⟩
  · cases h
    rfl
  · intro i hi
    exact (List.mem_filter.mp hi).2

theorem invoke_search_ok_shape (up : Upstream) (payload : List (String × Json)) (j : Json)
    (h : invoke_search up payload = .ok j) :
    ∃ l, j = .obj [("ok", .bool true), ("ids", .arr l)] ∧ ∀ i ∈ l, truthy i = true := by
  unfold invoke_search at h
  obtain ⟨qJ, _, h⟩ := exceptBind_ok _ _ _ h
  obtain ⟨szJ, _, h⟩ := exceptBind_ok _ _ _ h
  obtain ⟨sz, _, h⟩ := exceptBind_ok _ _ _ h
  obtain ⟨aJ, _, h⟩ := exceptBind_ok _ _ _ h
  obtain ⟨data, _, h⟩ := exceptBind_ok _ _ _ h
  exact search_extract_ok_shape data j h

theorem extract_ids_length (hits : List Json) :
    ∀ l, extract_ids hits = .ok l → l.length ≤ hits.length := by
  induction hits with
  | nil =>
    intro l h
    unfold extract_ids at h
    cases h
    simp
  | cons hd tl ih =>
    intro l h
    unfold extract_ids at h
    obtain ⟨srcOpt, _, h⟩ := exceptBind_ok _ _ _ h
    by_cases ht : truthy (srcOpt.getD .null) = true
    · rw [if_pos ht] at h
      obtain ⟨np, _, h⟩ := exceptBind_ok _ _ _ h
      obtain ⟨rest, hrest, h⟩ := exceptBind_ok _ _ _ h
      cases h
      simpa using Nat.succ_le_succ (ih rest hrest)
    · rw [if_neg ht] at h
      exact Nat.le_succ_of_le (ih l h)

theorem zeroHits_first_source (d : Json) (h : zeroHits d = true) :
    first_source d = .ok none := by
  unfold zeroHits at h
  split at h
  case h_2 => exact absurd h (by simp)
  case h_1 heq =>
    obtain ⟨a, ha, ha2⟩ := Option.bind_eq_some.mp heq
    cases d with
    | obj fs =>
      simp only [jfield] at ha
      cases a with
      | obj fs2 =>
        simp only [jfield] at ha2
        simp [first_source, pyGetD, pyGet, ha, ha2, Bind.bind, Except.bind, Except.map,
          Option.getD, truthy]
      | null => simp [jfield] at ha2
      | bool b => simp [jfield] at ha2
      | num n => simp [jfield] at ha2
      | str s => simp [jfield] at ha2
      | arr xs => simp [jfield] at ha2
    | null => simp [jfield] at ha
    | bool b => simp [jfield] at ha
    | num n => simp [jfield] at ha
    | str s => simp [jfield] at ha
    | arr xs => simp [jfield] at ha

theorem post_search_ok_of_lt (up : Upstream) (aliasArg : String) (body : Json)
    (h : (up (search_url aliasArg) body).status < 400) :
    post_search up aliasArg body = .ok (up (search_url aliasArg) body).body := by
  unfold post_search
  rw [if_neg (by omega)]

theorem fetch_extract_of_none (d : Json) (h : first_source d = .ok none) :
    fetch_extract d = .ok (.obj [("ok", .bool true), ("result", .null)]) := by
  simp [fetch_extract, h, okBind, truthy, Option.getD]

theorem fetch_extract_of_falsy (d : Json) (srcOpt : Option Json)
    (h : first_source d = .ok srcOpt) (hf : truthy (srcOpt.getD Json.null) = false) :
    fetch_extract d = .ok (.obj [("ok", .bool true), ("result", .null)]) := by
  simp [fetch_extract, h, okBind, hf]

theorem firstSourceDegenerate_first_source (d : Json)
    (h : firstSourceDegenerate d = true) :
    ∃ srcOpt, first_source d = .ok srcOpt ∧ truthy (srcOpt.getD Json.null) = false := by
  unfold firstSourceDegenerate at h
  split at h
  case h_2 => exact absurd h (by simp)
  case h_1 hfs tail heq =>
    obtain ⟨a, ha, ha2⟩ := Option.bind_eq_some.mp heq
    cases d with
    | obj fs =>
      simp only [jfield] at ha
      cases a with
      | obj fs2 =>
        simp only [jfield] at ha2
        have hfs_eq : first_source (.obj fs) =
            .ok (Json.lookupField hfs "_source") := by
          simp [first_source, pyGetD, pyGet, ha, ha2, Bind.bind, Except.bind,
            Except.map, Option.getD, truthy]
        split at h
        case h_1 hsrc => exact ⟨none, by rw [hfs_eq, hsrc], rfl⟩
        case h_2 hsrc => exact ⟨some (.obj []), by rw [hfs_eq, hsrc], rfl⟩
        case h_3 => exact absurd h (by simp)
      | null => simp [jfield] at ha2
      | bool b => simp [jfield] at ha2
      | num n => simp [jfield] at ha2
      | str s => simp [jfield] at ha2
      | arr xs => simp [jfield] at ha2
    | null => simp [jfield] at ha
    | bool b => simp [jfield] at ha
    | num n => simp [jfield] at ha
    | str s => simp [jfield] at ha
    | arr xs => simp [jfield] at ha

theorem extract_ids_keptId : ∀ (hits : List Json), (∀ h ∈ hits, wfHit h = true) →
    ∃ L, extract_ids hits = .ok L ∧ L.filter truthy = hits.filterMap keptId := by
  intro hits
  induction hits with
  | nil => exact fun _ => ⟨[], rfl, rfl⟩
  | cons hd tl ih =>
    intro hwf
    obtain ⟨L, hL, hfL⟩ := ih (fun h hm => hwf h (List.mem_cons_of_mem _ hm))
    have hhd := hwf hd (List.mem_cons_self _ _)
    cases hd with
    | obj fs =>
      cases hsrc : Json.lookupField fs "_source" with
      | none =>
        refine ⟨L, ?_, ?_⟩
        · unfold extract_ids
          simp [pyGet, hsrc, okBind, Option.getD, truthy, hL]
        · simp [List.filterMap_cons, keptId, hsrc, hfL]
      | some src =>
        cases src with
        | null =>
          refine ⟨L, ?_, ?_⟩
          · unfold extract_ids
            simp [pyGet, hsrc, okBind, Option.getD, truthy, hL]
          · simp [List.filterMap_cons, keptId, hsrc, hfL]
        | obj sfs =>
          by_cases hemp : sfs.isEmpty
          · refine ⟨L, ?_, ?_⟩
            · unfold extract_ids
              simp [pyGet, hsrc, okBind, Option.getD, truthy, hemp, hL]
            · simp [List.filterMap_cons, keptId, hsrc, hemp, hfL]
          · cases hnp : Json.lookupField sfs "numeroProcesso" with
            | none =>
              refine ⟨Json.null :: L, ?_, ?_⟩
              · unfold extract_ids
                simp [pyGet, hsrc, okBind, Option.getD, truthy, hemp, hnp, hL]
              · simp [List.filter_cons, truthy, List.filterMap_cons, keptId, hsrc, hemp,
                  hnp, hfL]
            | some v =>
              refine ⟨v :: L, ?_, ?_⟩
              · unfold extract_ids
                simp [pyGet, hsrc, okBind, Option.getD, truthy, hemp, hnp, hL]
              · by_cases hv : truthy v = true
                · simp [List.filter_cons, hv, List.filterMap_cons, keptId, hsrc, hemp,
                    hnp, hfL]
                · simp [List.filter_cons, hv, List.filterMap_cons, keptId, hsrc, hemp,
                    hnp, hfL]
        | bool b => simp [wfHit, hsrc] at hhd
        | num n => simp [wfHit, hsrc] at hhd
        | str s => simp [wfHit, hsrc] at hhd
        | arr xs => simp [wfHit, hsrc] at hhd
    | null => simp [wfHit] at hhd
    | bool b => simp [wfHit] at hhd
    | num n => simp [wfHit] at hhd
    | str s => simp [wfHit] at hhd
    | arr xs => simp [wfHit] at hhd

theorem pingLoop_mem (n : Nat) (e : SseEvent) (h : e ∈ pingLoop n) : e = SseEvent.ping := by
  induction n with
  | zero => cases h
  | succ m ih =>
    cases h with
    | head => rfl
    | tail _ h' => exact ih h'

theorem pingLoop_length (n : Nat) : (pingLoop n).length = n := by
  induction n with
  | zero => rfl
  | succ m ih => simp [pingLoop, ih]

/-- C1 counterexample: requesting size 1 against an upstream that answers
with two hits sharing one case number yields `ids = ["A", "A"]` — a
duplicated entry, and more entries than the requested size. The claim that
`search` never returns duplicates and returns at most `size` entries fails
on this input. -/
theorem C1_counterexample :
    invoke_search C1up [("query", Json.str "x"), ("size", Json.num 1)] =
      .ok (.obj [("ok", .bool true), ("ids", .arr [.str "A", .str "A"])]) ∧
    ¬ List.Nodup [Json.str "A", Json.str "A"] ∧
    1 < ([Json.str "A", Json.str "A"]).length :=
  ⟨rfl, by simp, by simp⟩

/-- C1 amended: every successful `search` response is
`ok: true, ids: [...]` where every entry is truthy — in particular never
null and never the empty string; and the id list (after the truthiness
filter) has at most one entry per upstream hit, so it is bounded by `size`
exactly when the upstream honors the requested page size. Duplicates are
not removed and no truncation to `size` is performed by the adapter. -/
theorem C1_search_ids_amended :
    (∀ (up : Upstream) (payload : List (String × Json)) (j : Json),
      invoke_search up payload = .ok j →
      ∃ l, j = .obj [("ok", .bool true), ("ids", .arr l)] ∧
        ∀ i ∈ l, truthy i = true ∧ i ≠ Json.null) ∧
    (∀ (hits : List Json) (l : List Json),
      extract_ids hits = .ok l → (l.filter truthy).length ≤ hits.length) := by
  constructor
  · intro up payload j h
    obtain ⟨l, hj, hl⟩ := invoke_search_ok_shape up payload j h
    refine ⟨l, hj, fun i hi => ⟨hl i hi, ?_⟩⟩
    intro hnull
    rw [hnull] at hi
    simpa [truthy] using hl _ hi
  · intro hits l h
    exact le_trans (List.length_filter_le _ _) (extract_ids_length hits l h)

/-- C1 witness: the amended theorem applied at a concrete oracle and at a
concrete hit list. -/
theorem C1_search_ids_amended_witness :
    (∃ l, Json.obj [("ok", Json.bool true), ("ids", Json.arr [Json.str "A", Json.str "A"])] =
        .obj [("ok", .bool true), ("ids", .arr l)] ∧
      ∀ i ∈ l, truthy i = true ∧ i ≠ Json.null) ∧
    (([Json.str "A"]).filter truthy).length ≤
      ([Json.obj [("_source", Json.obj [("numeroProcesso", Json.str "A")])]]).length :=
  ⟨C1_search_ids_amended.1 C1up [("query", Json.str "x"), ("size", Json.num 1)] _ rfl,
   C1_search_ids_amended.2 [Json.obj [("_source", Json.obj [("numeroProcesso", Json.str "A")])]]
     [Json.str "A"] rfl⟩

/-- C2: a fetch invocation (flat body carrying an `id`) against an upstream
that answers every search with a success carrying zero hits returns exactly
`ok: true, result: null`, not an error. -/
theorem C2_fetch_zero_hits (up : Upstream) (payload : List (String × Json)) (v : Json)
    (hnw : Json.lookupField payload "arguments" = none)
    (hid : Json.lookupField payload "id" = some v)
    (hup : ∀ url body, (up url body).status < 400 ∧ zeroHits (up url body).body = true) :
    invoke_fetch up payload = .ok (.obj [("ok", .bool true), ("result", .null)]) := by
  have hps : ∀ a b, post_search up a b >>= fetch_extract =
      .ok (.obj [("ok", .bool true), ("result", .null)]) := by
    intro a b
    rw [post_search_ok_of_lt up a b (hup (search_url a) b).1, okBind]
    exact fetch_extract_of_none _ (zeroHits_first_source _ (hup (search_url a) b).2)
  unfold invoke_fetch
  simp only [hnw, Option.getD, pySubscript, hid, pyGetD, pyGet, Except.map, okBind]
  exact hps _ _

/-- C2 witness: concrete zero-hit upstream and a concrete fetch body. -/
theorem C2_fetch_zero_hits_witness :
    invoke_fetch C2up [("id", .str "0001234-56.2020.8.19.0001")] =
      .ok (.obj [("ok", .bool true), ("result", .null)]) :=
  C2_fetch_zero_hits C2up [("id", .str "0001234-56.2020.8.19.0001")]
    (.str "0001234-56.2020.8.19.0001") rfl rfl
    (fun _ _ => ⟨show (200:Nat) < 400 by decide, rfl⟩)

/-- C3: when the alias argument is absent, null or empty (flat body), both
handlers consult the upstream oracle only at the URL built from
`DEFAULT_ALIAS` (`api_publica_tjrj`) — any two upstreams agreeing on that
URL produce identical responses, i.e. the upstream request is sent to the
default-partition path and never to one built from an empty alias. -/
theorem C3_default_alias (up up' : Upstream) (payload : List (String × Json))
    (hnw : Json.lookupField payload "arguments" = none)
    (hal : aliasUnset payload)
    (hagree : ∀ body, up (search_url DEFAULT_ALIAS) body = up' (search_url DEFAULT_ALIAS) body) :
    invoke_search up payload = invoke_search up' payload ∧
    invoke_fetch up payload = invoke_fetch up' payload := by
  have hA : pyStr (pyOr ((Json.lookupField payload "alias").getD Json.null)
      (.str DEFAULT_ALIAS)) = DEFAULT_ALIAS := by
    rcases hal with h | h | h <;> simp [h, pyOr, truthy, pyStr, Option.getD]
  have hps : ∀ b, post_search up DEFAULT_ALIAS b = post_search up' DEFAULT_ALIAS b := by
    intro b
    unfold post_search
    rw [hagree b]
  constructor
  · unfold invoke_search
    simp only [hnw, Option.getD_none, pyGetD, pyGet, Except.map, okBind, hA, hps]
  · unfold invoke_fetch
    simp only [hnw, Option.getD_none, pyGetD, pyGet, Except.map, okBind, hA, hps]

theorem C3_default_alias_witness :
    invoke_search C3up1 [("query", Json.str "q"), ("id", Json.str "x")] =
      invoke_search C3up2 [("query", Json.str "q"), ("id", Json.str "x")] ∧
    invoke_fetch C3up1 [("query", Json.str "q"), ("id", Json.str "x")] =
      invoke_fetch C3up2 [("query", Json.str "q"), ("id", Json.str "x")] :=
  C3_default_alias C3up1 C3up2 [("query", Json.str "q"), ("id", Json.str "x")]
    rfl (Or.inl rfl) (fun _ => (if_pos rfl).symm)

/-- C4: when every upstream answer has status `s ≥ 400` with body text `t`,
both invocation handlers (given their required argument and a parseable
size) fail with an `HTTPException` carrying the same status `s`, which the
framework surfaces as an HTTP response with status `s` whose error detail
is `"Erro DataJud: " ++ t` — a message containing the upstream body text as
a substring. Instantiated at `s = 500`, `t = "internal error"` this is the
scenario of the spec. -/
theorem C4_upstream_error (up : Upstream) (payload : List (String × Json))
    (qv iv d : Json) (s : Nat) (t : String)
    (hnw : Json.lookupField payload "arguments" = none)
    (hq : Json.lookupField payload "query" = some qv)
    (hid : Json.lookupField payload "id" = some iv)
    (hsz : ∃ n, pyInt ((Json.lookupField payload "size").getD (.num 10)) = .ok n)
    (hup : ∀ url body, up url body = ⟨s, t, d⟩)
    (hs : 400 ≤ s) :
    runHandler (invoke_search up payload) =
      ⟨s, .obj [("detail", .str ("Erro DataJud: " ++ t))]⟩ ∧
    runHandler (invoke_fetch up payload) =
      ⟨s, .obj [("detail", .str ("Erro DataJud: " ++ t))]⟩ ∧
    ∃ a b, ("Erro DataJud: " ++ t) = a ++ t ++ b := by
  obtain ⟨n, hn⟩ := hsz
  have hps : ∀ a b, post_search up a b =
      .error (.http s ("Erro DataJud: " ++ t)) := by
    intro a b
    unfold post_search
    rw [hup (search_url a) b, if_pos hs]
  refine ⟨?_, ?_, "Erro DataJud: ", "", by simp⟩
  · unfold invoke_search
    simp only [hnw, Option.getD_none, pySubscript, hq, pyGetD, pyGet, Except.map,
      okBind, hn, hps, errBind]
    rfl
  · unfold invoke_fetch
    simp only [hnw, Option.getD_none, pySubscript, hid, pyGetD, pyGet, Except.map,
      okBind, hps, errBind]
    rfl

/-- C4 witness: the theorem at the concrete 500 "internal error" upstream
(the scenario of the spec). -/
theorem C4_upstream_error_witness :
    runHandler (invoke_search C4up [("query", Json.str "x"), ("id", Json.str "y")]) =
      ⟨500, .obj [("detail", .str ("Erro DataJud: " ++ "internal error"))]⟩ ∧
    runHandler (invoke_fetch C4up [("query", Json.str "x"), ("id", Json.str "y")]) =
      ⟨500, .obj [("detail", .str ("Erro DataJud: " ++ "internal error"))]⟩ ∧
    ∃ a b, ("Erro DataJud: " ++ "internal error") = a ++ "internal error" ++ b :=
  C4_upstream_error C4up [("query", Json.str "x"), ("id", Json.str "y")]
    (Json.str "x") (Json.str "y") Json.null 500 "internal error"
    rfl rfl rfl ⟨10, rfl⟩ (fun _ _ => rfl) (by decide)

/-- C5 counterexample: for the arguments object
`A = ("query": "a", "arguments": ("query": "b"))` — which itself contains an
`arguments` key — posting `A` flat and posting `("arguments": A)` give
different responses: the flat call reads its arguments from the inner
`arguments` value and searches for "b" (zero hits), the wrapped call
searches for "a" (one hit). The claim that flat and wrapped bodies are
interchangeable for every arguments object fails on this input. -/
theorem C5_counterexample :
    runHandler (invoke_search C5up
      [("query", Json.str "a"), ("arguments", Json.obj [("query", Json.str "b")])]) ≠
    runHandler (invoke_search C5up
      [("arguments", Json.obj
        [("query", Json.str "a"), ("arguments", Json.obj [("query", Json.str "b")])])]) := by
  intro h
  exact absurd (congrArg respIdsLen h) (by decide)

/-- C5 amended: for every arguments object `A` that does not itself contain
an `arguments` key, invoking with the flat body `A` and with the wrapped
body `("arguments": A)` produce identical responses, for both handlers. -/
theorem C5_flat_wrapped_amended (up : Upstream) (A : List (String × Json))
    (h : Json.lookupField A "arguments" = none) :
    invoke_search up A = invoke_search up [("arguments", Json.obj A)] ∧
    invoke_fetch up A = invoke_fetch up [("arguments", Json.obj A)] := by
  constructor
  · unfold invoke_search
    simp [h, Option.getD_none, Option.getD_some, Json.lookupField]
  · unfold invoke_fetch
    simp [h, Option.getD_none, Option.getD_some, Json.lookupField]

theorem C5_flat_wrapped_amended_witness :
    invoke_search C5up [("query", Json.str "x"), ("id", Json.str "y")] =
      invoke_search C5up [("arguments", Json.obj [("query", Json.str "x"), ("id", Json.str "y")])] ∧
    invoke_fetch C5up [("query", Json.str "x"), ("id", Json.str "y")] =
      invoke_fetch C5up [("arguments", Json.obj [("query", Json.str "x"), ("id", Json.str "y")])] :=
  C5_flat_wrapped_amended C5up [("query", Json.str "x"), ("id", Json.str "y")] rfl

/-- C6 counterexample: invoking search or fetch with an empty body (missing
`query` / `id`) makes the handler raise `KeyError`, which the framework
converts to an HTTP 500 — a server error, not the 4xx client error the
claim requires (the process does not crash). -/
theorem C6_counterexample :
    runHandler (invoke_search C6up []) = ⟨500, Json.str "Internal Server Error"⟩ ∧
    runHandler (invoke_fetch C6up []) = ⟨500, Json.str "Internal Server Error"⟩ ∧
    ¬ (runHandler (invoke_search C6up [])).status < 500 :=
  ⟨rfl, rfl, by decide⟩

/-- C6 amended: a body missing the required argument (no `arguments`
wrapper, no `query`, no `id`) fails the request with the generic HTTP 500
response of the framework — the process does not crash, but the status is a
server error, not a 4xx. -/
theorem C6_missing_arg_amended (up : Upstream) (payload : List (String × Json))
    (hnw : Json.lookupField payload "arguments" = none)
    (hq : Json.lookupField payload "query" = none)
    (hid : Json.lookupField payload "id" = none) :
    runHandler (invoke_search up payload) = ⟨500, Json.str "Internal Server Error"⟩ ∧
    runHandler (invoke_fetch up payload) = ⟨500, Json.str "Internal Server Error"⟩ := by
  constructor
  · unfold invoke_search
    simp [hnw, Option.getD_none, pySubscript, hq, errBind, runHandler]
  · unfold invoke_fetch
    simp [hnw, Option.getD_none, pySubscript, hid, errBind, runHandler]

theorem C6_missing_arg_amended_witness :
    runHandler (invoke_search C6up []) = ⟨500, Json.str "Internal Server Error"⟩ ∧
    runHandler (invoke_fetch C6up []) = ⟨500, Json.str "Internal Server Error"⟩ :=
  C6_missing_arg_amended C6up [] rfl rfl rfl

/-- C7: on every discovery-stream connection (whose peer disconnect is
first observed at keep-alive check `n`), the first emitted event is the
single `tools` event carrying the complete static catalog, every later
event is a ping, and the stream is exactly `n + 1` events long — nothing is
emitted after the disconnect is observed. -/
theorem C7_sse_stream (n : Nat) :
    (sse_events n).head? = some (SseEvent.tools (.obj [("tools", TOOLS)])) ∧
    (∀ e ∈ (sse_events n).tail, e = SseEvent.ping) ∧
    (sse_events n).length = n + 1 := by
  refine ⟨rfl, ?_, ?_⟩
  · intro e he
    exact pingLoop_mem n e he
  · simp [sse_events, pingLoop_length]

/-- C8 counterexample: the route table of the app carries no
`POST /invoke/movimentacoes` operation, refuting the claim that the program
exposes one. -/
theorem C8_counterexample : ("POST", "/invoke/movimentacoes") ∉ app_routes := by
  decide

/-- C8 amended: the only invocation (POST) routes the program exposes are
`/invoke/search` and `/invoke/fetch`; the movement-history endpoint of the
earlier tool family is absent from this version of the service. -/
theorem C8_routes_amended :
    app_routes.filter (fun r => r.1 == "POST") =
      [("POST", "/invoke/search"), ("POST", "/invoke/fetch")] := by
  decide

/-- C9: a fetch invocation against an upstream whose first hit has a
missing `_source` or an `_source` equal to the empty object returns
`ok: true, result: null` — indistinguishable from no matching record. -/
theorem C9_fetch_degenerate_source (up : Upstream) (payload : List (String × Json)) (v : Json)
    (hnw : Json.lookupField payload "arguments" = none)
    (hid : Json.lookupField payload "id" = some v)
    (hup : ∀ url body, (up url body).status < 400 ∧
      firstSourceDegenerate (up url body).body = true) :
    invoke_fetch up payload = .ok (.obj [("ok", .bool true), ("result", .null)]) := by
  have hps : ∀ a b, post_search up a b >>= fetch_extract =
      .ok (.obj [("ok", .bool true), ("result", .null)]) := by
    intro a b
    rw [post_search_ok_of_lt up a b (hup (search_url a) b).1, okBind]
    obtain ⟨srcOpt, h1, h2⟩ :=
      firstSourceDegenerate_first_source _ (hup (search_url a) b).2
    exact fetch_extract_of_falsy _ srcOpt h1 h2
  unfold invoke_fetch
  simp only [hnw, Option.getD, pySubscript, hid, pyGetD, pyGet, Except.map, okBind]
  exact hps _ _

theorem C9_fetch_degenerate_source_witness :
    invoke_fetch C9up [("id", .str "777")] =
      .ok (.obj [("ok", .bool true), ("result", .null)]) :=
  C9_fetch_degenerate_source C9up [("id", .str "777")] (.str "777") rfl rfl
    (fun _ _ => ⟨show (200:Nat) < 400 by decide, rfl⟩)

/-- C10: a search invocation against an upstream answering with a
well-formed hit list returns `ok: true` with exactly the ids `keptId`
describes: hits with an absent, null or empty `_source`, and hits whose
`numeroProcesso` is absent, null or the empty string, are silently dropped,
and the remaining case numbers are kept in order. -/
theorem C10_search_drops_falsy (up : Upstream) (payload : List (String × Json)) (v : Json)
    (hits : List Json)
    (hnw : Json.lookupField payload "arguments" = none)
    (hq : Json.lookupField payload "query" = some v)
    (hsz : ∃ n, pyInt ((Json.lookupField payload "size").getD (.num 10)) = .ok n)
    (hwf : ∀ h ∈ hits, wfHit h = true)
    (hup : ∀ url body, up url body = ⟨200, "", .obj [("hits", .obj [("hits", .arr hits)])]⟩) :
    invoke_search up payload =
      .ok (.obj [("ok", .bool true), ("ids", .arr (hits.filterMap keptId))]) := by
  obtain ⟨n, hn⟩ := hsz
  obtain ⟨L, hL, hfL⟩ := extract_ids_keptId hits hwf
  have hps : ∀ a b, post_search up a b >>= search_extract =
      .ok (.obj [("ok", .bool true), ("ids", .arr (hits.filterMap keptId))]) := by
    intro a b
    have hok : post_search up a b = .ok (.obj [("hits", .obj [("hits", .arr hits)])]) := by
      unfold post_search
      rw [hup (search_url a) b]
      simp
    rw [hok, okBind]
    simp [search_extract, pyGetD, pyGet, Json.lookupField, Except.map, okBind, pyIter,
      hL, hfL, Option.getD]
  unfold invoke_search
  simp only [hnw, Option.getD_none, pySubscript, hq, pyGetD, pyGet, Except.map, okBind, hn]
  exact hps _ _

/-- C10 witness: on a hit list exercising every dropped shape, the theorem
applies and the kept ids evaluate to exactly the two truthy case
numbers. -/
theorem C10_search_drops_falsy_witness :
    invoke_search C10up [("query", Json.str "busca")] =
      .ok (.obj [("ok", .bool true), ("ids", .arr (C10hits.filterMap keptId))]) ∧
    C10hits.filterMap keptId = [Json.str "A", Json.str "B"] :=
  ⟨C10_search_drops_falsy C10up [("query", Json.str "busca")] (Json.str "busca") C10hits
    rfl rfl ⟨10, rfl⟩ (by decide) (fun _ _ => rfl), rfl⟩
